import Mathlib

set_option maxRecDepth 10000
set_option maxHeartbeats 1000000

/-!
Shallow embedding of the MXR protocol tool's frame codec
(`src/services/canProtocolService.ts`) together with the register and
alarm tables it consults (`src/types.ts`).

Modelling conventions:
* JavaScript numbers are modelled as `ℚ` where they carry measurement
  values and as `Nat`/`Int` where the source uses them as integers or
  bit patterns.  `DataView` reads/writes of `Float32` are modelled by a
  bit-exact IEEE-754 binary32 codec over `ℚ` (`encodeF32`/`decodeF32`);
  the only idealisation is that the final `parseFloat` re-rounding to
  binary64 performed by JavaScript after `toFixed(2)` is not applied
  (the rational result of the 2-decimal rounding is kept exactly).
* A `Uint8Array` payload is a `List Nat` of byte values.  `DataView`
  accessors return `Option`; `none` models the `RangeError` thrown by
  an out-of-bounds read, so `decodeFrame` returns `Option DecodedFrame`.
-/

unseal Rat.mul Rat.add Rat.sub Rat.inv

namespace Mxr

/-- Fixed protocol constant `MXR_ID_DEFAULT` from `src/types.ts`. -/
def MXR_ID_DEFAULT : Nat := 0x15

/-- Fixed protocol constant `MODULE_TYPE_FIXED` from `src/types.ts`. -/
def MODULE_TYPE_FIXED : Nat := 0x81

/-- Fixed protocol constant `MONITOR_ADDR` from `src/types.ts`. -/
def MONITOR_ADDR : Nat := 0xA0

/-- Result record of `parseFrameId` (anonymous object in the source). -/
structure FrameIdParts where
  mxrId : Nat
  moduleType : Nat
  dstAddr : Nat
  srcAddr : Nat
deriving DecidableEq

/-- `CanProtocolService.buildFrameId`: packs the four identifier fields,
with the source address defaulting to `MONITOR_ADDR`. -/
def buildFrameId (dstAddr : Nat) (srcAddr : Nat := MONITOR_ADDR) : Nat :=
  ((MXR_ID_DEFAULT &&& 0x1F) <<< 24) |||
  ((MODULE_TYPE_FIXED &&& 0xFF) <<< 16) |||
  ((dstAddr &&& 0xFF) <<< 8) |||
  (srcAddr &&& 0xFF)

/-- `CanProtocolService.parseFrameId`: pure bit extraction.  The source
applies JavaScript 32-bit bitwise operators, whose net effect on the
masked fields is extraction from the unsigned 32-bit pattern of `id`. -/
def parseFrameId (id : Nat) : FrameIdParts :=
  let u := id % 4294967296
  { mxrId := (u >>> 24) &&& 0x1F
    moduleType := (u >>> 16) &&& 0xFF
    dstAddr := (u >>> 8) &&& 0xFF
    srcAddr := u &&& 0xFF }

example : buildFrameId 1 = 0x158101A0 := by decide
example : parseFrameId 0x158101A0 = ⟨0x15, 0x81, 0x01, 0xA0⟩ := by decide

/-- The `RegisterType` enum from `src/types.ts`. -/
inductive RegisterType where
  | READ_ONLY_FLOAT
  | READ_ONLY_INT
  | WRITE_ONLY_FLOAT
  | WRITE_ONLY_INT
deriving DecidableEq, BEq

/-- The `RegisterDefinition` interface from `src/types.ts`.  The optional
`options` record (integer value → label) is modelled as an association
list; an absent `options` field is the empty list.  (All option labels in
the table are non-empty strings, so JavaScript's truthiness test
`options && options[val]` coincides with presence in the list.) -/
structure RegisterDefinition where
  address : Nat
  name : String
  type : RegisterType
  unit : Option String := none
  description : String
  options : List (Int × String) := []
deriving DecidableEq

/-- Register 0x0001 of `REGISTERS` in `src/types.ts`. -/
def regOutputVoltage : RegisterDefinition :=
  { address := 0x0001, name := "Output Voltage", type := .READ_ONLY_FLOAT
    unit := some "V", description := "Current output voltage" }

/-- Register 0x0002 of `REGISTERS` in `src/types.ts`. -/
def regOutputCurrent : RegisterDefinition :=
  { address := 0x0002, name := "Output Current", type := .READ_ONLY_FLOAT
    unit := some "A", description := "Current output current" }

/-- Register 0x0004 of `REGISTERS` in `src/types.ts`. -/
def regInputVoltage : RegisterDefinition :=
  { address := 0x0004, name := "Input Voltage", type := .READ_ONLY_FLOAT
    unit := some "V", description := "AC Input voltage" }

/-- Register 0x0006 of `REGISTERS` in `src/types.ts` (the unit string
carries the same mojibake bytes as the source file). -/
def regInletTemp : RegisterDefinition :=
  { address := 0x0006, name := "Inlet Temp", type := .READ_ONLY_FLOAT
    unit := some "Â°C", description := "Air inlet temperature" }

/-- Register 0x0100 of `REGISTERS` in `src/types.ts`. -/
def regAlarmInfo : RegisterDefinition :=
  { address := 0x0100, name := "Alarm Info", type := .READ_ONLY_INT
    description := "Bitmap of alarms (See Table 2.1)" }

/-- Register 0x0101 of `REGISTERS` in `src/types.ts`. -/
def regStatus : RegisterDefinition :=
  { address := 0x0101, name := "Status", type := .READ_ONLY_INT
    description := "Operating status"
    options := [(0x0000, "Power-on default"), (0x0001, "Initialization"),
                (0x0002, "Fault"), (0x0003, "Standby"),
                (0x0004, "Start Delay / Relay Action"), (0x0006, "Soft Start"),
                (0x0007, "Running")] }

/-- Register 0x0110 of `REGISTERS` in `src/types.ts`. -/
def regOnOffStatus : RegisterDefinition :=
  { address := 0x0110, name := "ON/OFF Status", type := .READ_ONLY_INT
    description := "0=Start, 1=Stop" }

/-- Register 0x0400 of `REGISTERS` in `src/types.ts`. -/
def regControlCommand : RegisterDefinition :=
  { address := 0x0400, name := "Control Command", type := .WRITE_ONLY_INT
    description := "Set Startup/Shutdown"
    options := [(0, "Startup (0x00)"), (1, "Shutdown (0x01)")] }

/-- Register 0x0410 of `REGISTERS` in `src/types.ts`. -/
def regSetOutputVoltage : RegisterDefinition :=
  { address := 0x0410, name := "Set Output Voltage", type := .WRITE_ONLY_FLOAT
    unit := some "V", description := "Target voltage setting" }

/-- Register 0x0411 of `REGISTERS` in `src/types.ts`. -/
def regSetOutputCurrent : RegisterDefinition :=
  { address := 0x0411, name := "Set Output Current", type := .WRITE_ONLY_FLOAT
    unit := some "A", description := "Target current limit" }

/-- Register 0x0301 of `REGISTERS` in `src/types.ts`. -/
def regTroubleshooting : RegisterDefinition :=
  { address := 0x0301, name := "Troubleshooting", type := .WRITE_ONLY_INT
    description := "Clear Faults: 1=Enable" }

/-- The `REGISTERS` record of `src/types.ts`, as the key-lookup function
`REGISTERS[addr]` (a missing key yields `undefined`, i.e. `none`). -/
def REGISTERS (addr : Nat) : Option RegisterDefinition :=
  if addr = 0x0001 then some regOutputVoltage
  else if addr = 0x0002 then some regOutputCurrent
  else if addr = 0x0004 then some regInputVoltage
  else if addr = 0x0006 then some regInletTemp
  else if addr = 0x0100 then some regAlarmInfo
  else if addr = 0x0101 then some regStatus
  else if addr = 0x0110 then some regOnOffStatus
  else if addr = 0x0400 then some regControlCommand
  else if addr = 0x0410 then some regSetOutputVoltage
  else if addr = 0x0411 then some regSetOutputCurrent
  else if addr = 0x0301 then some regTroubleshooting
  else none

/-- The `ALARM_BITS` array of 32 labels from `src/types.ts`. -/
def ALARM_BITS : List String :=
  ["Input Overvoltage", "Input Undervoltage", "Output Overvoltage", "Output Undervoltage",
   "Input Ext Overvoltage", "Input Ext Undervoltage", "Output Ext Overvoltage", "Output Ext Undervoltage",
   "Inlet Temp Low", "Reserved", "Internal OverTemp 1", "Internal OverTemp 2",
   "Inlet OverTemp", "Ref Voltage 1 Abnormal", "Ref Voltage 2 Abnormal", "Fan Failure",
   "Input Fast Overvolt", "Output Fast Overvolt", "Overcurrent Protection", "Emergency Stop",
   "CAN Comm Failure", "CAN Bus Fault", "Reserved", "Reserved",
   "Overvolt Disconnect", "Reserved", "Output Short Circuit", "Reserved",
   "Reserved", "Reserved", "Module Lockup", "Reserved"]

/-! ### JavaScript numeric primitives, modelled over `ℚ` -/

/-- `2^z` as a rational, for an integer exponent. -/
def qpow2 (z : Int) : ℚ :=
  if 0 ≤ z then ((2 ^ z.toNat : Nat) : ℚ) else 1 / ((2 ^ (-z).toNat : Nat) : ℚ)

/-- Fuel-driven helper for `natLog2` (structural recursion, so that it
reduces during kernel evaluation). -/
def log2fuel : Nat → Nat → Nat
  | 0, _ => 0
  | fuel + 1, n => if 2 ≤ n then log2fuel fuel (n / 2) + 1 else 0

/-- `⌊log2 n⌋` for a positive natural (0 for 0 and 1). -/
def natLog2 (n : Nat) : Nat := log2fuel n n

/-- Round a rational to the nearest integer, ties to even (the IEEE-754
default rounding used by `DataView.setFloat32`). -/
def rne (x : ℚ) : Int :=
  let f := ⌊x⌋
  let r := x - (f : ℚ)
  if r < 1/2 then f
  else if 1/2 < r then f + 1
  else if f % 2 = 0 then f else f + 1

/-- `⌊log2 a⌋` for a positive rational `a`. -/
def ratLog2 (a : ℚ) : Int :=
  let ln : Int := natLog2 a.num.natAbs
  let ld : Int := natLog2 a.den
  let z : Int := ln - ld
  if qpow2 z ≤ a then z else z - 1

/-- Decode an IEEE-754 binary32 bit pattern to its exact rational value;
`none` for the non-finite patterns (exponent field 255: ±Infinity, NaN).
Models `DataView.getFloat32(..., false)` on the 4 big-endian bytes. -/
def decodeF32 (b : Nat) : Option ℚ :=
  let s := (b >>> 31) &&& 1
  let e := (b >>> 23) &&& 0xFF
  let m := b &&& 0x7FFFFF
  if e = 255 then none
  else
    let mag : ℚ :=
      if e = 0 then (m : ℚ) / ((2 ^ 149 : Nat) : ℚ)
      else if 150 ≤ e then ((2 ^ 23 + m : Nat) : ℚ) * ((2 ^ (e - 150) : Nat) : ℚ)
      else ((2 ^ 23 + m : Nat) : ℚ) / ((2 ^ (150 - e) : Nat) : ℚ)
    some (if s = 1 then -mag else mag)

/-- Encode a rational as the nearest IEEE-754 binary32 bit pattern
(round to nearest, ties to even; overflow to the infinity pattern).
Models `DataView.setFloat32(..., false)`.  The `min _ 0x7F800000` clamps
are unreachable safety bounds keeping the magnitude inside the finite
range ending at the infinity pattern. -/
def encodeF32 (q : ℚ) : Nat :=
  if q = 0 then 0
  else
    (if q < 0 then 2 ^ 31 else 0) +
    (if ratLog2 |q| < -126 then
      -- subnormal range: round in units of 2^(-149)
      min (rne (|q| * ((2 ^ 149 : Nat) : ℚ))).toNat 0x7F800000
    else if 128 ≤ ratLog2 |q| then
      -- overflow to +/- Infinity
      0x7F800000
    else
      -- normal range: significand scaled to [2^23, 2^24]; the biased
      -- exponent/mantissa encoding is continuous across a carry
      min ((ratLog2 |q| + 127).toNat * 2 ^ 23
        + ((rne (|q| * qpow2 (23 - ratLog2 |q|))).toNat - 2 ^ 23)) 0x7F800000)

example : encodeF32 700 = 0x442F0000 := by decide
example : encodeF32 1 = 0x3F800000 := by decide
example : encodeF32 (-(3/2)) = 0xBFC00000 := by decide
example : decodeF32 0x442F0000 = some 700 := by decide
example : decodeF32 0x3F800000 = some 1 := by decide
example : decodeF32 0x7F800000 = none := by decide

/-- `parseFloat(val.toFixed(2))` from the decoder's float branch,
modelled at rational precision: round to the nearest 2-decimal value,
ties away from the floor (ECMA-262 `toFixed` picks the larger candidate
on a tie); magnitudes of `1e21` and above are passed through unchanged
(`toFixed` falls back to `ToString` there). -/
def jsToFixed2 (q : ℚ) : ℚ :=
  if ((10 ^ 21 : Nat) : ℚ) ≤ |q| then q
  else if q < 0 then -((⌊(-q) * 100 + 1/2⌋ : ℚ) / 100)
  else (⌊q * 100 + 1/2⌋ : ℚ) / 100

example : jsToFixed2 700 = 700 := by decide
example : jsToFixed2 (7/3) = 233/100 := by decide
example : jsToFixed2 (-(1/64)) = -(2/100) := by decide

/-- JavaScript `ToInt32`-style truncation toward zero. -/
def jsTrunc (q : ℚ) : Int :=
  if q < 0 then -⌊-q⌋ else ⌊q⌋

/-- The unsigned 32-bit pattern stored by `DataView.setInt32` for a
JavaScript number (truncate toward zero, wrap modulo `2^32`). -/
def jsToUint32 (q : ℚ) : Nat :=
  ((jsTrunc q) % 4294967296).toNat

/-- Reinterpret an unsigned 32-bit pattern as the signed value read by
`DataView.getInt32`. -/
def int32OfNat (u : Nat) : Int :=
  if 2 ^ 31 ≤ u then (u : Int) - 2 ^ 32 else (u : Int)

example : jsToUint32 (-1) = 0xFFFFFFFF := by decide
example : int32OfNat 0xFFFFFFFF = -1 := by decide
example : int32OfNat (jsToUint32 7) = 7 := by decide

/-! ### String helpers used by the decoder -/

/-- JavaScript `n.toString(16).toUpperCase()` for a non-negative number:
hex digits, no padding, uppercase letters. -/
def natToHexUpper (n : Nat) : String :=
  ((Nat.toDigits 16 n).map Char.toUpper).asString

example : natToHexUpper 0xDEADBEEF = "DEADBEEF" := by decide
example : natToHexUpper 0 = "0" := by decide

/-- `b.toString(16).padStart(2, '0').toUpperCase()` — one payload byte
rendered as two uppercase hex digits. -/
def byteToHex2 (b : Nat) : String :=
  let s := natToHexUpper b
  if s.length < 2 then "0" ++ s else s

example : byteToHex2 0xF = "0F" := by decide

/-! ### Payload build and frame decode -/

/-- The float/int discrimination performed inside `decodeFrame`
(`registerDef.type === READ_ONLY_FLOAT || registerDef.type === WRITE_ONLY_FLOAT`). -/
def isFloatKind (t : RegisterType) : Bool :=
  t == .READ_ONLY_FLOAT || t == .WRITE_ONLY_FLOAT

/-- `CanProtocolService.buildDataPayload`: 8 bytes, big-endian — two
reserved zero bytes, the register address as `setUint16`, then the value
as `setFloat32` or `setInt32`. -/
def buildDataPayload (registerAddr : Nat) (value : ℚ) (isFloat : Bool) : List Nat :=
  let w : Nat := if isFloat then encodeF32 value else jsToUint32 value
  [0x00, 0x00,
   registerAddr / 2 ^ 8 % 2 ^ 8, registerAddr % 2 ^ 8,
   w / 2 ^ 24 % 2 ^ 8, w / 2 ^ 16 % 2 ^ 8, w / 2 ^ 8 % 2 ^ 8, w % 2 ^ 8]

example : buildDataPayload 0x0410 700 true = [0, 0, 4, 0x10, 0x44, 0x2F, 0, 0] := by decide
example : buildDataPayload 0x0400 1 false = [0, 0, 4, 0, 0, 0, 0, 1] := by decide

/-- `DataView.getUint8`: one byte, or `none` (`RangeError`) out of bounds. -/
def getUint8 (bytes : List Nat) (i : Nat) : Option Nat :=
  bytes.get? i

/-- `DataView.getUint16(_, false)`: two bytes big-endian. -/
def getUint16 (bytes : List Nat) (i : Nat) : Option Nat := do
  let b0 ← bytes.get? i
  let b1 ← bytes.get? (i + 1)
  pure (b0 * 2 ^ 8 + b1)

/-- `DataView.getUint32(_, false)`: four bytes big-endian. -/
def getUint32 (bytes : List Nat) (i : Nat) : Option Nat := do
  let b0 ← bytes.get? i
  let b1 ← bytes.get? (i + 1)
  let b2 ← bytes.get? (i + 2)
  let b3 ← bytes.get? (i + 3)
  pure (b0 * 2 ^ 24 + b1 * 2 ^ 16 + b2 * 2 ^ 8 + b3)

/-- `DataView.getInt32(_, false)`: the `getUint32` pattern reinterpreted
as a signed 32-bit value. -/
def getInt32 (bytes : List Nat) (i : Nat) : Option Int :=
  (getUint32 bytes i).map int32OfNat

/-- The decoded value field of a `DecodedFrame`: the source stores either
a number or a string there (`decodedValue: string | number`);
`nonFinite` stands for the JavaScript non-finite numbers (NaN, ±Infinity)
that a float register would produce from an exponent-255 bit pattern. -/
inductive DecodedValue where
  | num (q : ℚ)
  | str (s : String)
  | nonFinite
deriving DecidableEq

/-- The `DecodedFrame` interface from `src/types.ts`. -/
structure DecodedFrame where
  mxrId : Nat
  moduleType : Nat
  dstAddr : Nat
  srcAddr : Nat
  register : Nat
  rawPayloadHex : String
  decodedValue : DecodedValue
  isError : Bool
  errorDescription : String
deriving DecidableEq

/-- The alarm-bitmap rendering of `decodeFrame` (lines 122–128 of the
source): for each set bit of the 32-bit pattern, in ascending bit order,
push `ALARM_BITS[i]`; join with `", "`; `"No Alarms"` when empty.  The
source tests bits with `(val >> i) & 1` on the signed 32-bit value,
which extracts bit `i` of the two's-complement pattern `u`. -/
def alarmRender (u : Nat) : String :=
  let alarms := (List.range 32).filterMap
    (fun i => if (u >>> i) &&& 1 = 1 then some (ALARM_BITS.getD i "") else none)
  if alarms.length > 0 then String.intercalate ", " alarms else "No Alarms"

example : alarmRender 5 = "Input Overvoltage, Output Overvoltage" := by decide
example : alarmRender 0 = "No Alarms" := by decide

/-- `CanProtocolService.decodeFrame`.  Returns `none` exactly when a
`DataView` read runs past the end of the payload (JavaScript throws
`RangeError` there); the source performs no other length validation. -/
def decodeFrame (id : Nat) (dataBytes : List Nat) : Option DecodedFrame := do
  let idParts := parseFrameId id
  let returnCode ← getUint8 dataBytes 0
  let registerAddr ← getUint16 dataBytes 2
  -- Spec: 00 = Command (from host), F0/F1/F2 = Response (from module)
  let isResponse := returnCode == 0xF0 || returnCode == 0xF1 || returnCode == 0xF2
  let isError := isResponse && returnCode == 0xF2
  let errorDescription :=
    if isResponse then
      if returnCode == 0xF2 then "F2: Failure, discard frame"
      else if returnCode == 0xF1 then "F1: Forced to default value"
      else ""
    else ""
  let decodedValue ←
    match REGISTERS registerAddr with
    | some registerDef =>
      if isFloatKind registerDef.type then do
        let bits ← getUint32 dataBytes 4
        pure (match decodeF32 bits with
          | some val => DecodedValue.num (jsToFixed2 val)
          | none => DecodedValue.nonFinite)
      else do
        let val ← getInt32 dataBytes 4
        pure (match registerDef.options.lookup val with
          | some lbl => DecodedValue.str (toString val ++ " (" ++ lbl ++ ")")
          | none =>
            if registerDef.address = 0x0100 then
              DecodedValue.str (alarmRender ((val % 2 ^ 32).toNat))
            else
              DecodedValue.num (val : ℚ))
    | none => do
      let u ← getUint32 dataBytes 4
      pure (DecodedValue.str ("Unknown Reg: 0x" ++ natToHexUpper u))
  pure
    { mxrId := idParts.mxrId
      moduleType := idParts.moduleType
      dstAddr := idParts.dstAddr
      srcAddr := idParts.srcAddr
      register := registerAddr
      rawPayloadHex := String.intercalate " " (dataBytes.map byteToHex2)
      decodedValue := decodedValue
      isError := isError
      errorDescription := errorDescription }

example :
    decodeFrame 0x1581A002 [0xF0, 0x00, 0x00, 0x01, 0x44, 0x2F, 0x00, 0x00] =
      some { mxrId := 0x15, moduleType := 0x81, dstAddr := 0xA0, srcAddr := 0x02
             register := 0x0001, rawPayloadHex := "F0 00 00 01 44 2F 00 00"
             decodedValue := .num 700, isError := false, errorDescription := "" } := by
  decide

example :
    (decodeFrame 0 [0x00, 0x00, 0x01, 0x01, 0x00, 0x00, 0x00, 0x07]).map
      DecodedFrame.decodedValue = some (.str "7 (Running)") := by decide

example :
    (decodeFrame 0 [0xF0, 0x00, 0x01, 0x00, 0x00, 0x00, 0x00, 0x05]).map
      DecodedFrame.decodedValue =
      some (.str "Input Overvoltage, Output Overvoltage") := by decide

example :
    (decodeFrame 0 [0xF0, 0x00, 0x99, 0x99, 0xDE, 0xAD, 0xBE, 0xEF]).map
      DecodedFrame.decodedValue = some (.str "Unknown Reg: 0xDEADBEEF") := by decide

example : decodeFrame 0 [1, 2, 3] = none := by decide
example : (decodeFrame 0 [0xF0, 0, 0, 1, 0x44, 0x2F, 0, 0, 0xAB]).isSome := by decide

/-! ### Helper lemmas -/

theorem and_255_eq (x : Nat) : x &&& 255 = x % 256 :=
  Nat.and_pow_two_sub_one_eq_mod x 8

theorem and_31_eq (x : Nat) : x &&& 31 = x % 32 :=
  Nat.and_pow_two_sub_one_eq_mod x 5

theorem parseFrameId_eq (id : Nat) :
    parseFrameId id =
      { mxrId := id % 4294967296 / 2 ^ 24 % 32
        moduleType := id % 4294967296 / 2 ^ 16 % 256
        dstAddr := id % 4294967296 / 2 ^ 8 % 256
        srcAddr := id % 4294967296 % 256 } := by
  unfold parseFrameId
  simp only [Nat.shiftRight_eq_div_pow, and_255_eq, and_31_eq]

theorem buildFrameId_eq_arith (d s : Nat) (hd : d < 256) (hs : s < 256) :
    buildFrameId d s = 0x15810000 + d * 2 ^ 8 + s := by
  have hd' : d &&& 0xFF = d := by rw [and_255_eq]; omega
  have hs' : s &&& 0xFF = s := by rw [and_255_eq]; omega
  unfold buildFrameId MXR_ID_DEFAULT MODULE_TYPE_FIXED
  rw [hd', hs', Nat.shiftLeft_eq, Nat.shiftLeft_eq, Nat.shiftLeft_eq]
  rw [Nat.lor_assoc, Nat.lor_assoc]
  rw [Nat.mul_comm d (2 ^ 8), ← Nat.mul_add_lt_is_or hs d]
  rw [show (0x81 &&& 0xFF : Nat) * 2 ^ 16 = 2 ^ 16 * 0x81 from by decide]
  rw [← Nat.mul_add_lt_is_or (by omega) 0x81]
  rw [show (0x15 &&& 0x1F : Nat) * 2 ^ 24 = 2 ^ 24 * 0x15 from by decide]
  rw [← Nat.mul_add_lt_is_or (by omega) 0x15]
  omega

/-- The value decoded by `decodeFrame` from register address
`registerAddr` and the 32-bit pattern `u` of payload bytes 4–7 (the
match tree of lines 100–134 of the source, with the four bytes already
recombined). -/
def decodeValue8 (registerAddr u : Nat) : DecodedValue :=
  match REGISTERS registerAddr with
  | some registerDef =>
    if isFloatKind registerDef.type then
      match decodeF32 u with
      | some val => DecodedValue.num (jsToFixed2 val)
      | none => DecodedValue.nonFinite
    else
      let val := int32OfNat u
      match registerDef.options.lookup val with
      | some lbl => DecodedValue.str (toString val ++ " (" ++ lbl ++ ")")
      | none =>
        if registerDef.address = 0x0100 then
          DecodedValue.str (alarmRender ((val % 2 ^ 32).toNat))
        else
          DecodedValue.num (val : ℚ)
  | none => DecodedValue.str ("Unknown Reg: 0x" ++ natToHexUpper u)

/-- On any 8-byte payload, `decodeFrame` succeeds and its fields are the
stated functions of the bytes. -/
theorem decodeFrame_eight (id b0 b1 b2 b3 b4 b5 b6 b7 : Nat) :
    decodeFrame id [b0, b1, b2, b3, b4, b5, b6, b7] =
      some { mxrId := (parseFrameId id).mxrId
             moduleType := (parseFrameId id).moduleType
             dstAddr := (parseFrameId id).dstAddr
             srcAddr := (parseFrameId id).srcAddr
             register := b2 * 2 ^ 8 + b3
             rawPayloadHex :=
               String.intercalate " " ([b0, b1, b2, b3, b4, b5, b6, b7].map byteToHex2)
             decodedValue :=
               decodeValue8 (b2 * 2 ^ 8 + b3)
                 (b4 * 2 ^ 24 + b5 * 2 ^ 16 + b6 * 2 ^ 8 + b7)
             isError := (b0 == 0xF0 || b0 == 0xF1 || b0 == 0xF2) && b0 == 0xF2
             errorDescription :=
               if b0 == 0xF0 || b0 == 0xF1 || b0 == 0xF2 then
                 if b0 == 0xF2 then "F2: Failure, discard frame"
                 else if b0 == 0xF1 then "F1: Forced to default value"
                 else ""
               else "" } := by
  simp only [decodeFrame, decodeValue8, getUint8, getUint16, getUint32, getInt32,
    List.get?, Option.bind_eq_bind, Option.pure_def, Option.some_bind, Option.map_some']
  split
  · split <;> rfl
  · rfl

/-- Whenever `decodeFrame` returns a frame, the error flag and the error
description are the stated functions of payload byte 0. -/
theorem decodeFrame_some_error (id : Nat) (l : List Nat) (f : DecodedFrame)
    (h : decodeFrame id l = some f) :
    ∃ b0, getUint8 l 0 = some b0 ∧
      f.isError = ((b0 == 0xF0 || b0 == 0xF1 || b0 == 0xF2) && b0 == 0xF2) ∧
      f.errorDescription =
        (if b0 == 0xF0 || b0 == 0xF1 || b0 == 0xF2 then
          if b0 == 0xF2 then "F2: Failure, discard frame"
          else if b0 == 0xF1 then "F1: Forced to default value"
          else ""
        else "") := by
  simp only [decodeFrame, Option.bind_eq_bind, Option.pure_def, Option.bind_eq_some] at h
  obtain ⟨b0, hb0, b23, hb23, hf⟩ := h
  refine ⟨b0, hb0, ?_⟩
  rcases hR : REGISTERS b23 with _ | registerDef <;> rw [hR] at hf <;> dsimp only [] at hf
  · simp only [Option.bind_eq_some, Option.some_bind, Option.some.injEq] at hf
    obtain ⟨u, hu, hf⟩ := hf
    subst hf
    exact ⟨rfl, rfl⟩
  · cases hF : isFloatKind registerDef.type with
    | true =>
      rw [hF, if_pos rfl] at hf
      simp only [Option.bind_eq_some, Option.some_bind, Option.some.injEq] at hf
      obtain ⟨u, hu, hf⟩ := hf
      subst hf
      exact ⟨rfl, rfl⟩
    | false =>
      rw [hF, if_neg Bool.false_ne_true] at hf
      simp only [Option.bind_eq_some, Option.some_bind, Option.some.injEq] at hf
      obtain ⟨u, hu, hf⟩ := hf
      subst hf
      exact ⟨rfl, rfl⟩

/-! ### Claims -/

/-- C1: for every pair of byte values `dst` and `src` (each 0..255),
`parseFrameId (buildFrameId dst src)` returns exactly
`{mxrId := 0x15, moduleType := 0x81, dstAddr := dst, srcAddr := src}`;
with `src` omitted it defaults to the monitor address 0xA0, and
concretely `buildFrameId 1 = 0x158101A0`. -/
theorem frameId_roundtrip_and_default :
    (∀ dst, dst < 256 → ∀ src, src < 256 →
      parseFrameId (buildFrameId dst src) =
        { mxrId := 0x15, moduleType := 0x81, dstAddr := dst, srcAddr := src })
    ∧ buildFrameId 1 = 0x158101A0 := by
  refine ⟨fun d hd s hs => ?_, by decide⟩
  rw [buildFrameId_eq_arith d s hd hs, parseFrameId_eq]
  simp only [FrameIdParts.mk.injEq]
  refine ⟨?_, ?_, ?_, ?_⟩ <;> omega

/-- Witness for C1: the round-trip instantiated at `dst = 1`,
`src = 0xA3`, together with the defaulted-source literal. -/
theorem frameId_roundtrip_and_default_witness :
    parseFrameId (buildFrameId 1 0xA3) =
      { mxrId := 0x15, moduleType := 0x81, dstAddr := 1, srcAddr := 0xA3 } :=
  frameId_roundtrip_and_default.1 1 (by decide) 0xA3 (by decide)

/-- C4: on every 8-byte payload and every id, `decodeFrame` sets
`isError = true` exactly when byte 0 is 0xF2 (then the description is
"F2: Failure, discard frame"); byte 0 = 0xF1 gives `isError = false`
with description "F1: Forced to default value"; every other byte-0 value
(including 0xF0 and 0x00) gives `isError = false` and an empty
description — all independent of the register bytes. -/
theorem error_code_classification (id b0 b1 b2 b3 b4 b5 b6 b7 : Nat) :
    ((decodeFrame id [b0, b1, b2, b3, b4, b5, b6, b7]).map DecodedFrame.isError
      = some (b0 == 0xF2))
    ∧ ((decodeFrame id [b0, b1, b2, b3, b4, b5, b6, b7]).map DecodedFrame.errorDescription
      = some (if b0 = 0xF2 then "F2: Failure, discard frame"
              else if b0 = 0xF1 then "F1: Forced to default value"
              else "")) := by
  rw [decodeFrame_eight]
  constructor
  · simp only [Option.map_some', Option.some.injEq]
    by_cases h : b0 = 242 <;> simp [h]
  · simp only [Option.map_some', Option.some.injEq]
    by_cases h2 : b0 = 242
    · subst h2; decide
    · by_cases h1 : b0 = 241
      · subst h1; decide
      · by_cases h0 : b0 = 240
        · subst h0; decide
        · simp [h0, h1, h2]

/-- C9: decoding id 0x1581A002 with payload `F0 00 00 01 44 2F 00 00`
yields register 0x0001 (the "Output Voltage" float register), decoded
value 700 (big-endian float32 bytes `44 2F 00 00`, rounded to 2 decimal
digits), and `isError = false` for return code 0xF0. -/
theorem decode_literal_scenario_700V :
    (decodeFrame 0x1581A002 [0xF0, 0x00, 0x00, 0x01, 0x44, 0x2F, 0x00, 0x00] =
      some { mxrId := 0x15, moduleType := 0x81, dstAddr := 0xA0, srcAddr := 0x02
             register := 0x0001, rawPayloadHex := "F0 00 00 01 44 2F 00 00"
             decodedValue := .num 700, isError := false, errorDescription := "" })
    ∧ REGISTERS 0x0001 = some regOutputVoltage
    ∧ regOutputVoltage.name = "Output Voltage"
    ∧ isFloatKind regOutputVoltage.type = true := by
  exact ⟨by decide, by decide, rfl, rfl⟩

/-- C10: whenever `decodeFrame` returns a frame with `isError = true`,
the `errorDescription` is the non-empty string
"F2: Failure, discard frame" — an error flag with no text is
unreachable. -/
theorem error_flag_implies_description (id : Nat) (payload : List Nat)
    (h : (decodeFrame id payload).map DecodedFrame.isError = some true) :
    (decodeFrame id payload).map DecodedFrame.errorDescription
      = some "F2: Failure, discard frame" := by
  cases hd : decodeFrame id payload with
  | none => rw [hd] at h; simp at h
  | some f =>
    rw [hd] at h
    simp only [Option.map_some', Option.some.injEq] at h
    obtain ⟨b0, hb0, hErr, hDesc⟩ := decodeFrame_some_error id payload f hd
    have hb : b0 = 0xF2 := by
      rw [h] at hErr
      have := hErr.symm
      simp only [Bool.and_eq_true, beq_iff_eq] at this
      exact this.2
    subst hb
    simp only [Option.map_some', Option.some.injEq]
    rw [hDesc]
    decide

/-- Witness for C10: a concrete 0xF2 frame. -/
theorem error_flag_implies_description_witness :
    (decodeFrame 0 [0xF2, 0, 0, 1, 0, 0, 0, 0]).map DecodedFrame.errorDescription
      = some "F2: Failure, discard frame" :=
  error_flag_implies_description 0 [0xF2, 0, 0, 1, 0, 0, 0, 0] (by decide)

/-- C3 counterexample: a 9-byte payload is not rejected — `decodeFrame`
decodes it from its first 8 bytes and returns a frame (no
`MalformedPayload` condition exists anywhere in the code). -/
theorem oversized_payload_not_rejected :
    (decodeFrame 0x1581A002 [0xF0, 0, 0, 1, 0x44, 0x2F, 0, 0, 0xAB]).isSome = true
    ∧ (decodeFrame 0x1581A002 [0xF0, 0, 0, 1, 0x44, 0x2F, 0, 0, 0xAB]).map
        DecodedFrame.decodedValue = some (.num 700) := by
  decide

theorem decodeFrame_none_of_short (id : Nat) (l : List Nat) (h : l.length < 8) :
    decodeFrame id l = none := by
  rcases l with _ | ⟨b0, _ | ⟨b1, _ | ⟨b2, _ | ⟨b3, _ | ⟨b4, _ | ⟨b5, _ | ⟨b6, _ | ⟨b7, rest⟩⟩⟩⟩⟩⟩⟩⟩
  all_goals simp only [List.length_cons, List.length_nil] at h
  all_goals try omega
  all_goals
    simp only [decodeFrame, getUint8, getUint16, getUint32, getInt32,
      List.get?, Option.bind_eq_bind, Option.pure_def, Option.some_bind,
      Option.none_bind, Option.map_none']
  all_goals split <;> first | rfl | (split <;> rfl)

theorem decodeFrame_isSome_of_long (id : Nat) (l : List Nat) (h : 8 ≤ l.length) :
    (decodeFrame id l).isSome = true := by
  rcases l with _ | ⟨b0, _ | ⟨b1, _ | ⟨b2, _ | ⟨b3, _ | ⟨b4, _ | ⟨b5, _ | ⟨b6, _ | ⟨b7, rest⟩⟩⟩⟩⟩⟩⟩⟩
  all_goals simp only [List.length_cons, List.length_nil] at h
  all_goals try omega
  simp only [decodeFrame, getUint8, getUint16, getUint32, getInt32,
    List.get?, Option.bind_eq_bind, Option.pure_def, Option.some_bind]
  split
  · split <;> rfl
  · rfl

/-- C3 amended: `decodeFrame` performs no length validation.  It
succeeds on every payload of length at least 8 (a longer payload is
decoded from bytes 0–7), and on a shorter payload it fails only because
a `DataView` read runs out of bounds (`none`, the JavaScript
`RangeError`), never by signaling a dedicated malformed-payload
condition. -/
theorem decodeFrame_length_behavior (id : Nat) (payload : List Nat) :
    (decodeFrame id payload).isSome = true ↔ 8 ≤ payload.length := by
  constructor
  · intro h
    by_contra hlen
    rw [decodeFrame_none_of_short id payload (by omega)] at h
    simp at h
  · exact decodeFrame_isSome_of_long id payload

/-- `decodeValue8` at the alarm register renders the 32-bit pattern of
payload bytes 4–7 through `alarmRender`. -/
theorem decodeValue8_alarm (u : Nat) (hu : u < 2 ^ 32) :
    decodeValue8 0x0100 u = .str (alarmRender u) := by
  have hpat : (int32OfNat u % 2 ^ 32).toNat = u := by
    unfold int32OfNat; split_ifs <;> omega
  unfold decodeValue8
  rw [show REGISTERS 0x0100 = some regAlarmInfo from rfl]
  dsimp only []
  rw [show isFloatKind regAlarmInfo.type = false from rfl, if_neg Bool.false_ne_true]
  rw [show List.lookup (int32OfNat u) regAlarmInfo.options = none from rfl]
  dsimp only []
  rw [if_pos (show regAlarmInfo.address = 0x0100 from rfl), hpat]

/-- C6: for every id and 8-byte payload whose bytes 2–3 decode to the
alarm register 0x0100, the decoded value is the 32-bit bitmap rendering
of bytes 4–7: each set bit contributes its `ALARM_BITS` label in
ascending bit order, joined with ", ", and "No Alarms" when no bit is
set; concretely the pattern 0b101 gives
"Input Overvoltage, Output Overvoltage". -/
theorem alarm_bitmap_decoding (id b0 b1 b4 b5 b6 b7 : Nat)
    (h4 : b4 < 256) (h5 : b5 < 256) (h6 : b6 < 256) (h7 : b7 < 256) :
    ((decodeFrame id [b0, b1, 0x01, 0x00, b4, b5, b6, b7]).map DecodedFrame.decodedValue
      = some (.str (alarmRender (b4 * 2 ^ 24 + b5 * 2 ^ 16 + b6 * 2 ^ 8 + b7))))
    ∧ (∀ u : Nat, alarmRender u =
        (if ((List.range 32).filterMap
              (fun i => if u.testBit i then some (ALARM_BITS.getD i "") else none)).length > 0
         then String.intercalate ", "
            ((List.range 32).filterMap
              (fun i => if u.testBit i then some (ALARM_BITS.getD i "") else none))
         else "No Alarms"))
    ∧ alarmRender 5 = "Input Overvoltage, Output Overvoltage"
    ∧ alarmRender 0 = "No Alarms" := by
  refine ⟨?_, ?_, by decide, by decide⟩
  · rw [decodeFrame_eight]
    simp only [Option.map_some', Option.some.injEq]
    exact decodeValue8_alarm (b4 * 2 ^ 24 + b5 * 2 ^ 16 + b6 * 2 ^ 8 + b7) (by omega)
  · intro u
    have hcond : ∀ i : Nat, ((u >>> i) &&& 1 = 1) ↔ (u.testBit i = true) := by
      intro i
      rw [Nat.and_one_is_mod, Nat.shiftRight_eq_div_pow, Nat.testBit_to_div_mod]
      simp
    unfold alarmRender
    rw [List.filterMap_congr (fun i _ => if_congr (hcond i) rfl rfl)]

/-- Witness for C6: the literal bitmap 0b101. -/
theorem alarm_bitmap_decoding_witness :
    ((decodeFrame 0 [0xF0, 0, 0x01, 0x00, 0, 0, 0, 5]).map DecodedFrame.decodedValue
      = some (.str (alarmRender (0 * 2 ^ 24 + 0 * 2 ^ 16 + 0 * 2 ^ 8 + 5))))
    ∧ alarmRender 5 = "Input Overvoltage, Output Overvoltage" := by
  have h := alarm_bitmap_decoding 0 0xF0 0 0 0 0 5
    (by decide) (by decide) (by decide) (by decide)
  exact ⟨h.1, h.2.2.1⟩

/-- C7: for every id and 8-byte payload whose register is an
integer-kind register from the table defining an option label for the
exact decoded int32 value, the decoded value is "<int> (<label>)"; the
options lookup runs before (and so takes precedence over) both the
alarm-bitmap branch and the raw-integer branch.  Concretely register
0x0101 with integer value 7 decodes to "7 (Running)". -/
theorem options_label_decoding :
    (∀ id b0 b1 hi lo b4 b5 b6 b7 : Nat, ∀ d : RegisterDefinition, ∀ lbl : String,
      REGISTERS (hi * 2 ^ 8 + lo) = some d →
      isFloatKind d.type = false →
      d.options.lookup (int32OfNat (b4 * 2 ^ 24 + b5 * 2 ^ 16 + b6 * 2 ^ 8 + b7))
        = some lbl →
      (decodeFrame id [b0, b1, hi, lo, b4, b5, b6, b7]).map DecodedFrame.decodedValue
        = some (.str (toString (int32OfNat (b4 * 2 ^ 24 + b5 * 2 ^ 16 + b6 * 2 ^ 8 + b7))
            ++ " (" ++ lbl ++ ")")))
    ∧ (decodeFrame 0 [0, 0, 0x01, 0x01, 0, 0, 0, 7]).map DecodedFrame.decodedValue
        = some (.str "7 (Running)") := by
  constructor
  · intro id b0 b1 hi lo b4 b5 b6 b7 d lbl hreg hint hlook
    rw [decodeFrame_eight]
    simp only [Option.map_some', Option.some.injEq]
    unfold decodeValue8
    rw [hreg]
    dsimp only []
    rw [hint, if_neg Bool.false_ne_true, hlook]
  · decide

/-- Witness for C7: register 0x0101 (Status) with value 0 decodes
through the options table to "0 (Power-on default)". -/
theorem options_label_decoding_witness :
    (decodeFrame 0 [0, 0, 0x01, 0x01, 0, 0, 0, 0]).map DecodedFrame.decodedValue
      = some (.str "0 (Power-on default)") :=
  options_label_decoding.1 0 0 0 0x01 0x01 0 0 0 0 regStatus "Power-on default"
    (by decide) (by decide) (by decide)

/-- C8: for every id and 8-byte payload whose bytes 2–3 decode to a
register address absent from the table, `decodeFrame` still returns a
frame, and the decoded value is the fallback string made of the
"Unknown Reg: 0x" marker followed by the unsigned uppercase hex of
bytes 4–7. -/
theorem unknown_register_fallback (id b0 b1 hi lo b4 b5 b6 b7 : Nat)
    (hR : REGISTERS (hi * 2 ^ 8 + lo) = none) :
    ((decodeFrame id [b0, b1, hi, lo, b4, b5, b6, b7]).map DecodedFrame.decodedValue
      = some (.str ("Unknown Reg: 0x"
          ++ natToHexUpper (b4 * 2 ^ 24 + b5 * 2 ^ 16 + b6 * 2 ^ 8 + b7))))
    ∧ (decodeFrame id [b0, b1, hi, lo, b4, b5, b6, b7]).isSome = true := by
  refine ⟨?_, by rw [decodeFrame_eight]; rfl⟩
  rw [decodeFrame_eight]
  simp only [Option.map_some', Option.some.injEq]
  unfold decodeValue8
  rw [hR]

theorem encodeF32_lt (q : ℚ) : encodeF32 q < 2 ^ 32 := by
  unfold encodeF32
  split_ifs <;> omega

theorem jsToUint32_lt (q : ℚ) : jsToUint32 q < 2 ^ 32 := by
  unfold jsToUint32
  omega

/-- The register-table invariant: every entry's `address` field equals
its key, and every key fits in 16 bits. -/
theorem REGISTERS_addr (reg : Nat) (d : RegisterDefinition)
    (h : REGISTERS reg = some d) : d.address = reg ∧ reg < 2 ^ 16 := by
  unfold REGISTERS at h
  split_ifs at h <;>
    first
      | exact Option.noConfusion h
      | (injection h with h; subst h; subst ‹reg = _›; exact ⟨rfl, by norm_num⟩)

/-- `setInt32` followed by `getInt32` is the identity on int32 values. -/
theorem int32OfNat_jsToUint32_intCast (n : Int)
    (h1 : -(2 ^ 31) ≤ n) (h2 : n < 2 ^ 31) :
    int32OfNat (jsToUint32 (n : ℚ)) = n := by
  have htr : jsTrunc (n : ℚ) = n := by
    unfold jsTrunc
    split_ifs with h
    · rw [show -(n : ℚ) = ((-n : Int) : ℚ) from by push_cast; ring, Int.floor_intCast]
      ring
    · rw [Int.floor_intCast]
  unfold jsToUint32 int32OfNat
  rw [htr]
  split_ifs <;> omega

/-- Witness for C8: the spec's example address 0x9999. -/
theorem unknown_register_fallback_witness :
    ((decodeFrame 0 [0, 0, 0x99, 0x99, 0xDE, 0xAD, 0xBE, 0xEF]).map
        DecodedFrame.decodedValue = some (.str "Unknown Reg: 0xDEADBEEF"))
    ∧ (decodeFrame 0 [0, 0, 0x99, 0x99, 0xDE, 0xAD, 0xBE, 0xEF]).isSome = true := by
  have h := unknown_register_fallback 0 0 0 0x99 0x99 0xDE 0xAD 0xBE 0xEF (by decide)
  exact ⟨by rw [h.1]; decide, h.2⟩

/-- C5: for every register address (16-bit), value, and `isFloat` flag,
`buildDataPayload` returns exactly 8 bytes: bytes 0–1 are 0x00 0x00,
bytes 2–3 are the register address as an unsigned big-endian 16-bit
integer, and bytes 4–7 are the value encoded big-endian as an IEEE-754
binary32 float when `isFloat` is true, else as a signed 32-bit integer
(two's-complement pattern `jsToUint32`). -/
theorem payload_layout (reg : Nat) (v : ℚ) (isFloat : Bool) (hreg : reg < 2 ^ 16) :
    (buildDataPayload reg v isFloat).length = 8
    ∧ (buildDataPayload reg v isFloat).getD 0 9 = 0x00
    ∧ (buildDataPayload reg v isFloat).getD 1 9 = 0x00
    ∧ ((buildDataPayload reg v isFloat).getD 2 9) * 2 ^ 8
        + (buildDataPayload reg v isFloat).getD 3 9 = reg
    ∧ (∀ i, (buildDataPayload reg v isFloat).getD i 0 < 2 ^ 8)
    ∧ ((buildDataPayload reg v isFloat).getD 4 9) * 2 ^ 24
        + ((buildDataPayload reg v isFloat).getD 5 9) * 2 ^ 16
        + ((buildDataPayload reg v isFloat).getD 6 9) * 2 ^ 8
        + (buildDataPayload reg v isFloat).getD 7 9
        = (if isFloat then encodeF32 v else jsToUint32 v) := by
  have hw : (if isFloat then encodeF32 v else jsToUint32 v) < 2 ^ 32 := by
    cases isFloat
    · exact jsToUint32_lt v
    · exact encodeF32_lt v
  unfold buildDataPayload
  refine ⟨rfl, rfl, rfl, ?_, ?_, ?_⟩
  · show (reg / 2 ^ 8 % 2 ^ 8) * 2 ^ 8 + reg % 2 ^ 8 = reg
    omega
  · intro i
    rcases i with _ | _ | _ | _ | _ | _ | _ | _ | i
    · show (0x00 : Nat) < 2 ^ 8
      omega
    · show (0x00 : Nat) < 2 ^ 8
      omega
    · show reg / 2 ^ 8 % 2 ^ 8 < 2 ^ 8
      omega
    · show reg % 2 ^ 8 < 2 ^ 8
      omega
    · show _ / 2 ^ 24 % 2 ^ 8 < 2 ^ 8
      omega
    · show _ / 2 ^ 16 % 2 ^ 8 < 2 ^ 8
      omega
    · show _ / 2 ^ 8 % 2 ^ 8 < 2 ^ 8
      omega
    · show _ % 2 ^ 8 < 2 ^ 8
      omega
    · show (0 : Nat) < 2 ^ 8
      omega
  · show (_ / 2 ^ 24 % 2 ^ 8) * 2 ^ 24 + (_ / 2 ^ 16 % 2 ^ 8) * 2 ^ 16
        + (_ / 2 ^ 8 % 2 ^ 8) * 2 ^ 8 + _ % 2 ^ 8 = _
    omega

/-- Witness for C5: register 0x0410 with the float value 700. -/
theorem payload_layout_witness :
    (buildDataPayload 0x0410 700 true).length = 8
    ∧ ((buildDataPayload 0x0410 700 true).getD 2 9) * 2 ^ 8
        + (buildDataPayload 0x0410 700 true).getD 3 9 = 0x0410
    ∧ ((buildDataPayload 0x0410 700 true).getD 4 9) * 2 ^ 24
        + ((buildDataPayload 0x0410 700 true).getD 5 9) * 2 ^ 16
        + ((buildDataPayload 0x0410 700 true).getD 6 9) * 2 ^ 8
        + (buildDataPayload 0x0410 700 true).getD 7 9
        = (if true then encodeF32 700 else jsToUint32 700) := by
  have h := payload_layout 0x0410 700 true (by decide)
  exact ⟨h.1, h.2.2.2.1, h.2.2.2.2.2⟩

/-- C2 counterexample: with `isFloat` matching the register kind and the
exactly representable int32 value 7, decoding the built payload for the
Status register 0x0101 yields the string "7 (Running)", not the number
7 — the options-label branch overrides the numeric round-trip. -/
theorem payload_roundtrip_counterexample :
    ((decodeFrame 0x158101A0 (buildDataPayload 0x0101 7 false)).map
        DecodedFrame.decodedValue = some (.str "7 (Running)"))
    ∧ DecodedValue.str "7 (Running)" ≠ DecodedValue.num 7
    ∧ REGISTERS 0x0101 = some regStatus
    ∧ isFloatKind regStatus.type = false
    ∧ ((decodeFrame 0x158101A0 (buildDataPayload 0x0101 7 false)).map
        DecodedFrame.register = some 0x0101) := by
  refine ⟨by decide, by decide, by decide, rfl, by decide⟩

/-- C2 amended: for every table register and every id the decoded
register equals the built one; the decoded value round-trips to
`jsToFixed2 v` for float-kind registers on values exactly representable
in binary32, and exactly for int-kind registers on int32 values for
which the register defines no option label and whose address is not the
alarm register 0x0100 (in those two excluded cases the decoder instead
produces the label string or the alarm rendering). -/
theorem payload_roundtrip_amended (id reg : Nat) (d : RegisterDefinition)
    (hreg : REGISTERS reg = some d) (v : ℚ) :
    ((decodeFrame id (buildDataPayload reg v (isFloatKind d.type))).map
        DecodedFrame.register = some reg)
    ∧ (isFloatKind d.type = true → decodeF32 (encodeF32 v) = some v →
        (decodeFrame id (buildDataPayload reg v (isFloatKind d.type))).map
          DecodedFrame.decodedValue = some (.num (jsToFixed2 v)))
    ∧ (∀ n : Int, isFloatKind d.type = false → v = (n : ℚ) →
        -(2 ^ 31) ≤ n → n < 2 ^ 31 →
        d.options.lookup n = none → reg ≠ 0x0100 →
        (decodeFrame id (buildDataPayload reg v (isFloatKind d.type))).map
          DecodedFrame.decodedValue = some (.num v)) := by
  obtain ⟨haddr, hlt⟩ := REGISTERS_addr reg d hreg
  have hw : (if isFloatKind d.type = true then encodeF32 v else jsToUint32 v) < 2 ^ 32 := by
    split_ifs
    · exact encodeF32_lt v
    · exact jsToUint32_lt v
  have hpay : buildDataPayload reg v (isFloatKind d.type) =
      [0x00, 0x00, reg / 2 ^ 8 % 2 ^ 8, reg % 2 ^ 8,
       (if isFloatKind d.type = true then encodeF32 v else jsToUint32 v) / 2 ^ 24 % 2 ^ 8,
       (if isFloatKind d.type = true then encodeF32 v else jsToUint32 v) / 2 ^ 16 % 2 ^ 8,
       (if isFloatKind d.type = true then encodeF32 v else jsToUint32 v) / 2 ^ 8 % 2 ^ 8,
       (if isFloatKind d.type = true then encodeF32 v else jsToUint32 v) % 2 ^ 8] := rfl
  have hreg16 : (reg / 2 ^ 8 % 2 ^ 8) * 2 ^ 8 + reg % 2 ^ 8 = reg := by omega
  have hrecomb :
      ((if isFloatKind d.type = true then encodeF32 v else jsToUint32 v) / 2 ^ 24 % 2 ^ 8) * 2 ^ 24
        + ((if isFloatKind d.type = true then encodeF32 v else jsToUint32 v) / 2 ^ 16 % 2 ^ 8) * 2 ^ 16
        + ((if isFloatKind d.type = true then encodeF32 v else jsToUint32 v) / 2 ^ 8 % 2 ^ 8) * 2 ^ 8
        + (if isFloatKind d.type = true then encodeF32 v else jsToUint32 v) % 2 ^ 8
      = (if isFloatKind d.type = true then encodeF32 v else jsToUint32 v) := by omega
  have hframe2 :
      (decodeFrame id (buildDataPayload reg v (isFloatKind d.type))).map
          DecodedFrame.decodedValue
        = some (decodeValue8 reg
            (if isFloatKind d.type = true then encodeF32 v else jsToUint32 v)) := by
    rw [hpay, decodeFrame_eight, Option.map_some']
    refine congrArg some ?_
    show decodeValue8 ((reg / 2 ^ 8 % 2 ^ 8) * 2 ^ 8 + reg % 2 ^ 8) _ = _
    rw [hreg16, hrecomb]
  refine ⟨?_, ?_, ?_⟩
  · rw [hpay, decodeFrame_eight, Option.map_some']
    refine congrArg some ?_
    show (reg / 2 ^ 8 % 2 ^ 8) * 2 ^ 8 + reg % 2 ^ 8 = reg
    exact hreg16
  · intro hF hdec
    rw [hframe2, hF, if_pos rfl]
    unfold decodeValue8
    rw [hreg]
    dsimp only []
    rw [hF, if_pos rfl, hdec]
  · intro n hF hvn hn1 hn2 hlook hne
    rw [hframe2, hF, if_neg Bool.false_ne_true]
    unfold decodeValue8
    rw [hreg]
    dsimp only []
    rw [hF, if_neg Bool.false_ne_true]
    have hval : int32OfNat (jsToUint32 v) = n := by
      rw [hvn]; exact int32OfNat_jsToUint32_intCast n hn1 hn2
    rw [hval, hlook]
    dsimp only []
    rw [if_neg (haddr ▸ hne), hvn]

/-- Witness for C2 amended: the int register 0x0110 (no options) with
value 5, and the float register 0x0001 with value 700. -/
theorem payload_roundtrip_amended_witness :
    ((decodeFrame 0 (buildDataPayload 0x0110 5 (isFloatKind regOnOffStatus.type))).map
        DecodedFrame.register = some 0x0110)
    ∧ ((decodeFrame 0 (buildDataPayload 0x0110 5 (isFloatKind regOnOffStatus.type))).map
        DecodedFrame.decodedValue = some (.num 5))
    ∧ ((decodeFrame 0 (buildDataPayload 0x0001 700 (isFloatKind regOutputVoltage.type))).map
        DecodedFrame.decodedValue = some (.num (jsToFixed2 700))) := by
  have hint := payload_roundtrip_amended 0 0x0110 regOnOffStatus (by decide) 5
  have hflt := payload_roundtrip_amended 0 0x0001 regOutputVoltage (by decide) 700
  refine ⟨hint.1, ?_, hflt.2.1 rfl (by decide)⟩
  have h5 := hint.2.2 5 rfl (by decide) (by decide) (by decide) (by decide) (by decide)
  exact h5

end Mxr
